import Mathlib

/-!
Verification development for the rule-driven tabular-data validator
(src/src/validator/dsl.py): a shallow embedding of the DSL lexer, parser
and interpreter, together with theorems settling the frozen claims about
the validation language.

Modelling conventions:
* Python ints are embedded as integers, Python floats as rationals
  (exact arithmetic; the 1e-3 tolerance and all constants in the source
  are decimal, so every comparison exercised here has the same outcome
  as double precision).
* A row (the Python dict built by the engine, keys 1..N) is an
  association list from integer column index to cell value; lookup is
  first-match, mirroring dict lookup with unique keys.
* Fallible Python operations (float() on a string, dict lookup) return
  Option.
* Diagnostic message strings of verdicts are not modelled; a verdict is
  its passed boolean.
-/

namespace CapstoneDSL

/-- A Python cell value as produced by the engine's ingestion
(ValidationEngine.load_data): int, float, or str. -/
inductive Value where
  | int (n : ℤ)
  | float (q : ℚ)
  | str (s : String)
deriving DecidableEq, Repr

/-- A number carried by a NUMBER token: the lexer's t_NUMBER produces a
Python int when the digits contain no dot and a Python float otherwise. -/
inductive PyNum where
  | int (n : ℤ)
  | float (q : ℚ)
deriving DecidableEq, Repr

/-- Numeric content of a lexed number. -/
def PyNum.toQ : PyNum → ℚ
  | .int n => (n : ℚ)
  | .float q => q

/-- A NUMBER token value seen as a cell-like Python value. -/
def PyNum.toValue : PyNum → Value
  | .int n => .int n
  | .float q => .float q

/-- Parsed arithmetic expression (dsl.py builds nested tuples; a bare
Python int stands for a column reference or an integer literal, the two
being indistinguishable after parsing, and a Python float for a float
literal). -/
inductive Expr where
  | int (n : ℤ)
  | float (q : ℚ)
  | binary (op : String) (l r : Expr)
deriving DecidableEq, Repr

/-- A parsed rule: the six dict shapes built by the p_* productions of
dsl.py, with the same payloads (operator and datatype strings are the
lowercased token texts the productions store). -/
inductive Rule where
  | arithmetic (target : ℤ) (expression : Expr)
  | datatype (column : ℤ) (dtype : String)
  | comparison (column : ℤ) (operator : String) (value : Value)
  | pattern (column : ℤ) (operator : String) (pat : String)
  | range (column : ℤ) (min max : PyNum)
  | validation (column : ℤ) (validation : String)
deriving DecidableEq, Repr

/-- A row: the dict from 1-based column index to cell value that
ValidationEngine.load_data hands to the interpreter. -/
abbrev Row := List (ℤ × Value)

/-- Python data.get(k): dict lookup returning None when absent. -/
def rowGet (data : Row) (k : ℤ) : Option Value :=
  (data.find? (fun p => decide (p.1 = k))).map Prod.snd

/-- Numeric value of a run of decimal digit characters (Python int()). -/
def digitsVal (ds : List Char) : ℕ :=
  ds.foldl (fun a c => 10 * a + (c.toNat - 48)) 0

/-- Unsigned part of Python float() of a character list: digits with an
optional single dot, at least one digit overall ("5", "5.", "5.25",
".25").  Exponents, underscores, inf and nan are not modelled; no rule
or row exercised by the claims uses them. -/
def pyFloatUnsigned (cs : List Char) : Option ℚ :=
  let ip := cs.takeWhile Char.isDigit
  let rest := cs.dropWhile Char.isDigit
  match rest with
  | [] => if ip.isEmpty then none else some (digitsVal ip : ℚ)
  | '.' :: r =>
      let fp := r.takeWhile Char.isDigit
      let rest2 := r.dropWhile Char.isDigit
      if rest2.isEmpty && !(ip.isEmpty && fp.isEmpty) then
        some ((digitsVal ip : ℚ) + (digitsVal fp : ℚ) / 10 ^ fp.length)
      else none
  | _ => none

/-- Python float() of a character list: optional sign then the unsigned
decimal form. -/
def pyFloatChars : List Char → Option ℚ
  | '-' :: rest => (pyFloatUnsigned rest).map (fun q => -q)
  | '+' :: rest => pyFloatUnsigned rest
  | cs => pyFloatUnsigned cs

/-- A Python whitespace character (the ASCII ones str.strip and
float() ignore). -/
def isPySpace (c : Char) : Bool :=
  c = ' ' ∨ c = '\t' ∨ c = '\n' ∨ c = '\r' ∨ c = '\x0b' ∨ c = '\x0c'

/-- Python str.strip() on a character list: drop whitespace from both
ends. -/
def pyStripChars (cs : List Char) : List Char :=
  ((cs.dropWhile isPySpace).reverse.dropWhile isPySpace).reverse

/-- Python str.strip() on strings. -/
def pyStrip (s : String) : String :=
  String.mk (pyStripChars s.toList)

/-- Python s.startswith(pre). -/
def strStartsWith (s pre : String) : Bool :=
  pre.toList.isPrefixOf s.toList

/-- Python s.endswith(suf). -/
def strEndsWith (s suf : String) : Bool :=
  suf.toList.isSuffixOf s.toList

/-- Python float() applied to a string: surrounding whitespace is
stripped first. -/
def pyFloatStr (s : String) : Option ℚ :=
  pyFloatChars (pyStripChars s.toList)

/-- Python float() applied to a cell value: ints and floats coerce
directly, strings parse as signed decimals, anything else fails. -/
def pyFloatOfValue : Value → Option ℚ
  | .int n => some (n : ℚ)
  | .float q => some q
  | .str s => pyFloatStr s

/-- Left-pad a decimal string with zeros to a given width. -/
def padLeftZeros (s : String) (k : ℕ) : String :=
  String.mk (List.replicate (k - s.length) '0') ++ s

/-- Python str() of a float, for rationals with a finite decimal
expansion (the only floats the modelled pipeline produces): sign,
integer part, a dot, and the minimal number of fractional digits, at
least one (str(2.0) = "2.0", str(0.001) = "0.001").  Rationals without
a finite decimal expansion fall back to a num/den rendering; they do
not arise from lexing or coercion. -/
def pyStrFloat (q : ℚ) : String :=
  match (List.range (q.den + 1)).find? (fun k => 10 ^ k % q.den == 0) with
  | some k =>
      let k' := Nat.max k 1
      let numAbs := q.num.natAbs * 10 ^ k' / q.den
      (if q < 0 then "-" else "") ++ toString (numAbs / 10 ^ k') ++ "." ++
        padLeftZeros (toString (numAbs % 10 ^ k')) k'
  | none => toString q.num ++ "/" ++ toString q.den

/-- Python str() of a cell value. -/
def pyStr : Value → String
  | .int n => toString n
  | .float q => pyStrFloat q
  | .str s => s

/-- Python s.isdigit() restricted to ASCII: non-empty and all decimal
digits. -/
def pyIsdigit (s : String) : Bool :=
  !s.toList.isEmpty && s.toList.all Char.isDigit

/-- Python s.isalnum() restricted to ASCII: non-empty and all letters
or digits. -/
def pyIsalnum (s : String) : Bool :=
  !s.toList.isEmpty && s.toList.all Char.isAlphanum

/-- Remove the first occurrence of a character from a list (Python
s.replace(c, "", 1)). -/
def removeFirstAux (c : Char) : List Char → List Char
  | [] => []
  | x :: xs => if x = c then xs else x :: removeFirstAux c xs

/-- Python s.replace(c, "", 1) on strings. -/
def removeFirst (c : Char) (s : String) : String :=
  String.mk (removeFirstAux c s.toList)

/-- Python substring test (pattern in value). -/
def strContains (hay pat : String) : Bool :=
  decide (List.IsInfix pat.toList hay.toList)

/-- Python re.match(pattern, value), modelled for metacharacter-free
patterns, for which re.match is a literal prefix match.  Full regular
expression semantics are not modelled; no claim exercises the MATCHES
operator. -/
def reMatch (pat value : String) : Bool :=
  strStartsWith value pat

/-- DSLInterpreter.evaluate_expression: a bare int is looked up in the
row when the row has that key (the source comment reads "If it's an
integer, it might be a column reference") and is otherwise returned as
is; a float is returned as is; a binary node coerces both evaluated
sides with float() and applies the operator, with x / 0 defined as the
Python int 0 and an unknown operator or any coercion failure giving
None. -/
def evaluate_expression (expr : Expr) (data : Row) : Option Value :=
  match expr with
  | .int n =>
      match rowGet data n with
      | some v => some v
      | none => some (.int n)
  | .float q => some (.float q)
  | .binary op l r =>
      match evaluate_expression l data, evaluate_expression r data with
      | some lv, some rv =>
          match pyFloatOfValue lv, pyFloatOfValue rv with
          | some ln, some rn =>
              if op = "+" then some (.float (ln + rn))
              else if op = "-" then some (.float (ln - rn))
              else if op = "*" then some (.float (ln * rn))
              else if op = "/" then
                if rn ≠ 0 then some (.float (ln / rn)) else some (.int 0)
              else none
          | _, _ => none
      | _, _ => none

/-- DSLInterpreter.validate_rule: the passed boolean of the verdict for
one rule against one row, following the source branch by branch.  The
message string of the verdict is not modelled. -/
def validate_rule (rule : Rule) (data : Row) : Bool :=
  match rule with
  | .arithmetic target expr =>
      match evaluate_expression expr data, rowGet data target with
      | some expected, some actual =>
          match pyFloatOfValue actual, pyFloatOfValue expected with
          | some a, some e => decide (|a - e| < 1 / 1000)
          | _, _ => false
      | _, _ => false
  | .datatype column dtype =>
      match rowGet data column with
      | none => false
      | some v =>
          let s := pyStr v
          if dtype = "alphanum" then pyIsalnum s
          else if dtype = "numeric" then
            pyIsdigit (removeFirst '-' (removeFirst '.' s))
          else if dtype = "integer" then
            pyIsdigit s || (strStartsWith s "-" && pyIsdigit (String.mk (s.toList.drop 1)))
          else if dtype = "float" then (pyFloatOfValue v).isSome
          else if dtype = "string_type" then
            match v with
            | .str _ => true
            | _ => false
          else false
  | .comparison column operator val =>
      match rowGet data column with
      | none => false
      | some actual =>
          match pyFloatOfValue actual, pyFloatOfValue val with
          | some a, some b =>
              if operator = "=" then decide (|a - b| < 1 / 1000)
              else if operator = "!=" then decide (|a - b| > 1 / 1000)
              else if operator = ">" then decide (a > b)
              else if operator = "<" then decide (a < b)
              else if operator = ">=" then decide (a ≥ b)
              else if operator = "<=" then decide (a ≤ b)
              else false
          | _, _ =>
              let actualStr := pyStr actual
              let expectedStr := pyStr val
              if operator = "=" then actualStr == expectedStr
              else if operator = "!=" then actualStr != expectedStr
              else false
  | .pattern column operator pat =>
      let value := match rowGet data column with
        | some v => pyStr v
        | none => ""
      if operator = "matches" then reMatch pat value
      else if operator = "contains" then strContains value pat
      else if operator = "not_contains" then !(strContains value pat)
      else if operator = "starts_with" then strStartsWith value pat
      else if operator = "ends_with" then strEndsWith value pat
      else false
  | .range column mn mx =>
      match rowGet data column with
      | none => false
      | some v =>
          match pyFloatOfValue v with
          | some q => decide (mn.toQ ≤ q ∧ q ≤ mx.toQ)
          | none => false
  | .validation column vkind =>
      if vkind = "required" then
        match rowGet data column with
        | some v => pyStrip (pyStr v) != ""
        | none => false
      else false

/-- A lexer token of dsl.py.  Keyword tokens carry the matched source
text, since the productions store its lowercased form (relevant for
STRING_TYPE, whose regex also accepts the bare word STRING). -/
inductive Token where
  | COLUMN_REF (n : ℤ)
  | NUMBER (v : PyNum)
  | STRING (s : String)
  | PLUS
  | MINUS
  | MULTIPLY
  | DIVIDE
  | EQUALS
  | NOT_EQUALS
  | GREATER
  | LESS
  | GREATER_EQUAL
  | LESS_EQUAL
  | LPAREN
  | RPAREN
  | IS (t : String)
  | BETWEEN (t : String)
  | AND (t : String)
  | MATCHES (t : String)
  | CONTAINS (t : String)
  | NOT_CONTAINS (t : String)
  | STARTS_WITH (t : String)
  | ENDS_WITH (t : String)
  | ALPHANUM (t : String)
  | NUMERIC (t : String)
  | INTEGER (t : String)
  | FLOAT (t : String)
  | STRING_TYPE (t : String)
  | REQUIRED (t : String)
deriving DecidableEq, Repr

/-- Case-insensitive match of a fixed keyword at the head of the input
(underscores match exactly, letters up to case); returns the matched
source characters and the remainder. -/
def matchCI : List Char → List Char → Option (List Char × List Char)
  | [], cs => some ([], cs)
  | _ :: _, [] => none
  | k :: ks, c :: cs =>
      if c.toLower = k.toLower then
        (matchCI ks cs).map (fun p => (c :: p.1, p.2))
      else none

/-- A keyword token rule: one of the t_KEYWORD functions of dsl.py,
matching its word case-insensitively and carrying the matched text. -/
def kwRule (w : String) (mk : String → Token) (cs : List Char) :
    Option (Token × List Char) :=
  (matchCI w.toList cs).map (fun p => (mk (String.mk p.1), p.2))

/-- Lexer rule t_IS. -/
def t_IS : List Char → Option (Token × List Char) := kwRule "IS" Token.IS

/-- Lexer rule t_BETWEEN. -/
def t_BETWEEN : List Char → Option (Token × List Char) := kwRule "BETWEEN" Token.BETWEEN

/-- Lexer rule t_AND. -/
def t_AND : List Char → Option (Token × List Char) := kwRule "AND" Token.AND

/-- Lexer rule t_MATCHES. -/
def t_MATCHES : List Char → Option (Token × List Char) := kwRule "MATCHES" Token.MATCHES

/-- Lexer rule t_CONTAINS. -/
def t_CONTAINS : List Char → Option (Token × List Char) := kwRule "CONTAINS" Token.CONTAINS

/-- Lexer rule t_NOT_CONTAINS. -/
def t_NOT_CONTAINS : List Char → Option (Token × List Char) :=
  kwRule "NOT_CONTAINS" Token.NOT_CONTAINS

/-- Lexer rule t_STARTS_WITH. -/
def t_STARTS_WITH : List Char → Option (Token × List Char) :=
  kwRule "STARTS_WITH" Token.STARTS_WITH

/-- Lexer rule t_ENDS_WITH. -/
def t_ENDS_WITH : List Char → Option (Token × List Char) :=
  kwRule "ENDS_WITH" Token.ENDS_WITH

/-- Lexer rule t_ALPHANUM. -/
def t_ALPHANUM : List Char → Option (Token × List Char) := kwRule "ALPHANUM" Token.ALPHANUM

/-- Lexer rule t_NUMERIC. -/
def t_NUMERIC : List Char → Option (Token × List Char) := kwRule "NUMERIC" Token.NUMERIC

/-- Lexer rule t_INTEGER. -/
def t_INTEGER : List Char → Option (Token × List Char) := kwRule "INTEGER" Token.INTEGER

/-- Lexer rule t_FLOAT. -/
def t_FLOAT : List Char → Option (Token × List Char) := kwRule "FLOAT" Token.FLOAT

/-- Lexer rule t_STRING_TYPE: the word STRING with a greedily matched
optional _TYPE suffix, any case. -/
def t_STRING_TYPE (cs : List Char) : Option (Token × List Char) :=
  (matchCI "STRING".toList cs).map (fun p =>
    match matchCI "_TYPE".toList p.2 with
    | some p2 => (Token.STRING_TYPE (String.mk (p.1 ++ p2.1)), p2.2)
    | none => (Token.STRING_TYPE (String.mk p.1), p.2))

/-- Lexer rule t_REQUIRED. -/
def t_REQUIRED : List Char → Option (Token × List Char) := kwRule "REQUIRED" Token.REQUIRED

/-- Lexer rule t_COLUMN_REF: one or more digits followed by C or c; the
value is the digits parsed as an int (the trailing letter dropped). -/
def t_COLUMN_REF (cs : List Char) : Option (Token × List Char) :=
  let ds := cs.takeWhile Char.isDigit
  let rest := cs.dropWhile Char.isDigit
  if ds.isEmpty then none
  else
    match rest with
    | c :: r => if c = 'C' ∨ c = 'c' then some (.COLUMN_REF (digitsVal ds), r) else none
    | [] => none

/-- Lexer rule t_STRING: the source regex is a double quote, a run of
non-quote characters, a closing double quote AND A TRAILING SPACE (the
regex text ends in a blank).  The value slice drops the first and last
matched characters, i.e. the opening quote and that trailing space, so
the stored value keeps the closing quote. -/
def t_STRING (cs : List Char) : Option (Token × List Char) :=
  match cs with
  | '"' :: rest =>
      let body := rest.takeWhile (fun c => c ≠ '"')
      match rest.dropWhile (fun c => c ≠ '"') with
      | '"' :: ' ' :: r => some (.STRING (String.mk (body ++ ['"'])), r)
      | _ => none
  | _ => none

/-- Lexer rule t_NUMBER: digits with an optional fractional part; an
int when there is no dot, a float otherwise.  The regex carries no sign
prefix, so every NUMBER value is non-negative. -/
def t_NUMBER (cs : List Char) : Option (Token × List Char) :=
  let ip := cs.takeWhile Char.isDigit
  let rest := cs.dropWhile Char.isDigit
  if ip.isEmpty then none
  else
    match rest with
    | '.' :: r =>
        let fp := r.takeWhile Char.isDigit
        let rest2 := r.dropWhile Char.isDigit
        if fp.isEmpty then some (.NUMBER (.int (digitsVal ip)), rest)
        else
          some (.NUMBER (.float ((digitsVal ip : ℚ) + (digitsVal fp : ℚ) / 10 ^ fp.length)),
            rest2)
    | _ => some (.NUMBER (.int (digitsVal ip)), rest)

/-- Lexer rule t_newline: one or more newline characters, producing no
token. -/
def t_newline (cs : List Char) : Option (List Char) :=
  let nl := cs.takeWhile (fun c => c = '\n')
  if nl.isEmpty then none else some (cs.dropWhile (fun c => c = '\n'))

/-- The single-character and two-character operator tokens, in PLY's
order for string rules (longer regexes first, so >=, <= and != are
tried before >, < and =). -/
def lexOperator : List Char → Option (Token × List Char)
  | [] => none
  | c :: cs =>
      if c = '>' then
        match cs with
        | '=' :: r => some (.GREATER_EQUAL, r)
        | _ => some (.GREATER, cs)
      else if c = '<' then
        match cs with
        | '=' :: r => some (.LESS_EQUAL, r)
        | _ => some (.LESS, cs)
      else if c = '!' then
        match cs with
        | '=' :: r => some (.NOT_EQUALS, r)
        | _ => none
      else if c = '+' then some (.PLUS, cs)
      else if c = '*' then some (.MULTIPLY, cs)
      else if c = '(' then some (.LPAREN, cs)
      else if c = ')' then some (.RPAREN, cs)
      else if c = '-' then some (.MINUS, cs)
      else if c = '/' then some (.DIVIDE, cs)
      else if c = '=' then some (.EQUALS, cs)
      else none

/-- The function-defined lexer rules that PLY tries, in definition
order, before t_NUMBER, t_newline and the string-defined operator
rules. -/
def lexFunctionRules : List (List Char → Option (Token × List Char)) :=
  [t_IS, t_BETWEEN, t_AND, t_MATCHES, t_CONTAINS, t_NOT_CONTAINS, t_STARTS_WITH,
    t_ENDS_WITH, t_ALPHANUM, t_NUMERIC, t_INTEGER, t_FLOAT, t_STRING_TYPE, t_REQUIRED,
    t_COLUMN_REF, t_STRING]

/-- Try a list of lexer rules in order and return the first match. -/
def firstRule : List (List Char → Option (Token × List Char)) → List Char →
    Option (Token × List Char)
  | [], _ => none
  | r :: rs, cs =>
      match r cs with
      | some p => some p
      | none => firstRule rs cs

/-- One attempt of PLY's master token regex at the current position:
the function rules in definition order, then t_NUMBER, then t_newline
(which yields no token), then the operator string rules. -/
def lexToken (cs : List Char) : Option (Option Token × List Char) :=
  match firstRule lexFunctionRules cs with
  | some (t, r) => some (some t, r)
  | none =>
      match t_NUMBER cs with
      | some (t, r) => some (some t, r)
      | none =>
          match t_newline cs with
          | some r => some (none, r)
          | none =>
              match lexOperator cs with
              | some (t, r) => some (some t, r)
              | none => none

/-- The lexer loop: skip the t_ignore characters (space and tab), try
the master regex, and on failure skip one character as t_error does.
Fuel bounds the iteration count; every successful match consumes at
least one character, so an initial fuel of the input length is exact. -/
def tokenizeAux : ℕ → List Char → List Token
  | 0, _ => []
  | _ + 1, [] => []
  | fuel + 1, c :: cs =>
      if c = ' ' ∨ c = '\t' then tokenizeAux fuel cs
      else
        match lexToken (c :: cs) with
        | some (some t, rest) => t :: tokenizeAux fuel rest
        | some (none, rest) => tokenizeAux fuel rest
        | none => tokenizeAux fuel cs

/-- Tokenize a rule source string. -/
def tokenize (s : String) : List Token :=
  tokenizeAux s.toList.length s.toList

mutual

/-- Production factor : COLUMN_REF or NUMBER or a parenthesized
expression.  A column reference and an integer literal both become a
bare int, exactly as the yacc actions store the raw token values.  Fuel
bounds the recursion depth; parseExprAll supplies enough for any
input. -/
def parseFactorF : ℕ → List Token → Option (Expr × List Token)
  | 0, _ => none
  | _ + 1, .COLUMN_REF n :: rest => some (.int n, rest)
  | _ + 1, .NUMBER (.int n) :: rest => some (.int n, rest)
  | _ + 1, .NUMBER (.float q) :: rest => some (.float q, rest)
  | f + 1, .LPAREN :: rest =>
      match parseExprF f rest with
      | some (e, .RPAREN :: rest2) => some (e, rest2)
      | _ => none
  | _ + 1, _ => none

/-- The left-recursive production term : term MULTIPLY factor or term
DIVIDE factor, run as a left fold. -/
def parseTermLoop : ℕ → Expr → List Token → Option (Expr × List Token)
  | 0, _, _ => none
  | f + 1, acc, .MULTIPLY :: rest =>
      match parseFactorF f rest with
      | some (e, rest2) => parseTermLoop f (.binary "*" acc e) rest2
      | none => none
  | f + 1, acc, .DIVIDE :: rest =>
      match parseFactorF f rest with
      | some (e, rest2) => parseTermLoop f (.binary "/" acc e) rest2
      | none => none
  | _ + 1, acc, ts => some (acc, ts)

/-- Production term : a factor followed by multiplicative operators. -/
def parseTermF : ℕ → List Token → Option (Expr × List Token)
  | 0, _ => none
  | f + 1, ts =>
      match parseFactorF f ts with
      | some (e, rest) => parseTermLoop f e rest
      | none => none

/-- The left-recursive production expression : expression PLUS term or
expression MINUS term, run as a left fold. -/
def parseExprLoop : ℕ → Expr → List Token → Option (Expr × List Token)
  | 0, _, _ => none
  | f + 1, acc, .PLUS :: rest =>
      match parseTermF f rest with
      | some (e, rest2) => parseExprLoop f (.binary "+" acc e) rest2
      | none => none
  | f + 1, acc, .MINUS :: rest =>
      match parseTermF f rest with
      | some (e, rest2) => parseExprLoop f (.binary "-" acc e) rest2
      | none => none
  | _ + 1, acc, ts => some (acc, ts)

/-- Production expression : a term followed by additive operators. -/
def parseExprF : ℕ → List Token → Option (Expr × List Token)
  | 0, _ => none
  | f + 1, ts =>
      match parseTermF f ts with
      | some (e, rest) => parseExprLoop f e rest
      | none => none

end

/-- Parse a complete token list as one expression, failing when any
token is left over (the arithmetic production requires the expression
to extend to the end of the rule).  Four fuel units per token bound the
recursion depth of the grammar, so fuel never runs out on an input this
parser accepts. -/
def parseExprAll (ts : List Token) : Option Expr :=
  match parseExprF (4 * ts.length + 4) ts with
  | some (e, []) => some e
  | _ => none

/-- Lowercase a keyword token's text (the productions store
p[n].lower()). -/
def kwLower (t : String) : String :=
  String.mk (t.toList.map Char.toLower)

/-- The datatype production: one of the five datatype keyword tokens,
whose lowered text the datatype rule stores. -/
def dtTok : Token → Option String
  | .ALPHANUM t => some (kwLower t)
  | .NUMERIC t => some (kwLower t)
  | .INTEGER t => some (kwLower t)
  | .FLOAT t => some (kwLower t)
  | .STRING_TYPE t => some (kwLower t)
  | _ => none

/-- The pattern_operator production: the five pattern keyword tokens,
stored lowercased. -/
def patOp : Token → Option String
  | .MATCHES t => some (kwLower t)
  | .CONTAINS t => some (kwLower t)
  | .NOT_CONTAINS t => some (kwLower t)
  | .STARTS_WITH t => some (kwLower t)
  | .ENDS_WITH t => some (kwLower t)
  | _ => none

/-- The comparison operators other than EQUALS, with the operator text
the token rule matched.  EQUALS is handled separately because of the
grammar conflict between comparison and arithmetic. -/
def cmpOpTok : Token → Option String
  | .NOT_EQUALS => some "!="
  | .GREATER => some ">"
  | .LESS => some "<"
  | .GREATER_EQUAL => some ">="
  | .LESS_EQUAL => some "<="
  | _ => none

/-- The value production: NUMBER or STRING, deliberately excluding
column references (the source comment on p_value reads "can be number
or string, but not column reference"). -/
def parseValueTok : Token → Option Value
  | .NUMBER v => some v.toValue
  | .STRING s => some (.str s)
  | _ => none

/-- The LALR parse of one rule line, as PLY builds it from the yacc
grammar of dsl.py with its default conflict resolution.  After COL =
the parser state holds both the completed comparison_operator item and
the arithmetic item expecting an expression; yacc resolves the
shift/reduce conflict in favour of shift, so any following token that
can start an expression (COLUMN_REF, NUMBER, LPAREN) continues as
arithmetic, and only a STRING right-hand side reduces to a comparison.
In particular nC = mC and nC = 500 both parse as arithmetic rules. -/
def parse_rule_tokens : List Token → Option Rule
  | [.COLUMN_REF n, .REQUIRED _] => some (.validation n "required")
  | [.COLUMN_REF n, .BETWEEN _, .NUMBER a, .AND _, .NUMBER b] => some (.range n a b)
  | [.COLUMN_REF n, .IS _, d] => (dtTok d).map (.datatype n)
  | .COLUMN_REF n :: .EQUALS :: rest =>
      match rest with
      | [.STRING s] => some (.comparison n "=" (.str s))
      | _ => (parseExprAll rest).map (.arithmetic n)
  | [.COLUMN_REF n, op, v] =>
      match cmpOpTok op, parseValueTok v with
      | some o, some val => some (.comparison n o val)
      | _, _ =>
          match patOp op, v with
          | some o, .STRING s => some (.pattern n o s)
          | _, _ => none
  | _ => none

/-- DSLInterpreter.parse_rule: lex the line and parse the token stream,
returning the parsed rule or None.  A lexing or parsing failure is
caught inside the method (p_error only prints), so the caller sees
None, never an exception. -/
def parse_rule (s : String) : Option Rule :=
  parse_rule_tokens (tokenize s)

/-- Python s.split("\x5cn") on a character list: cut at every newline,
keeping empty segments. -/
def splitLines : List Char → List (List Char)
  | [] => [[]]
  | '\n' :: rest => [] :: splitLines rest
  | c :: rest =>
      match splitLines rest with
      | l :: ls => (c :: l) :: ls
      | [] => [[c]]

/-- The body of the parse_multiple_rules for-loop: strip the line, skip
it when blank or a # comment, parse it, and append only a successful
parse; a line that fails to parse leaves the accumulator unchanged. -/
def lineStep (parsedRules : List Rule) (line : String) : List Rule :=
  let l := pyStrip line
  if l ≠ "" ∧ ¬ strStartsWith l "#" then
    match parse_rule l with
    | some r => parsedRules ++ [r]
    | none => parsedRules
  else parsedRules

/-- DSLInterpreter.parse_multiple_rules: strip the source, split on
newlines, and run the per-line loop over the lines. -/
def parse_multiple_rules (rulesText : String) : List Rule :=
  ((splitLines (pyStripChars rulesText.toList)).map String.mk).foldl lineStep []

/-- DSLInterpreter.validate_data: the for-loop appending one verdict
per rule, in order.  The interpreter's self.rules list is the explicit
first argument; each appended record keeps the rule alongside its
passed boolean. -/
def validate_data (rules : List Rule) (data : Row) : List (Rule × Bool) :=
  rules.foldl (fun results rule => results ++ [(rule, validate_rule rule data)]) []

/-- The loose signed-decimal shape the source's numeric datatype check
actually accepts: at most one dot, at most one dash, every character a
digit or a dot or a dash, and at least one digit, with no constraint on
where the dot or the dash sit. -/
def looseSignedDecimal (s : String) : Prop :=
  s.toList.count '.' ≤ 1 ∧ s.toList.count '-' ≤ 1 ∧
    (∀ ch ∈ s.toList, ch.isDigit = true ∨ ch = '.' ∨ ch = '-') ∧
    ∃ ch ∈ s.toList, ch.isDigit = true

/-! ## Helper lemmas -/

/-- The verdict loop is elementwise: the accumulator form of
validate_data equals a map over the ruleset. -/
theorem validate_data_eq_map (rules : List Rule) (data : Row) :
    validate_data rules data = rules.map (fun r => (r, validate_rule r data)) := by
  have h : ∀ (rs : List Rule) (acc : List (Rule × Bool)),
      rs.foldl (fun results rule => results ++ [(rule, validate_rule rule data)]) acc =
        acc ++ rs.map (fun r => (r, validate_rule r data)) := by
    intro rs
    induction rs with
    | nil => intro acc; simp
    | cons r rs ih => intro acc; simp [List.foldl_cons, ih]
  simpa using h rules []

/-- Removing the first occurrence coincides with List.erase. -/
theorem removeFirstAux_eq_erase (c : Char) (l : List Char) :
    removeFirstAux c l = l.erase c := by
  induction l with
  | nil => rfl
  | cons x xs ih =>
      rw [removeFirstAux, List.erase_cons]
      by_cases h : x = c <;> simp [h, ih]

/-- Characterization of the delete-first-dot-then-first-dash digit
check: it accepts exactly the lists made of digits plus at most one dot
and at most one dash anywhere, with at least one digit. -/
theorem numeric_check_list (l : List Char) :
    ((l.erase '.').erase '-' ≠ [] ∧ ∀ c ∈ (l.erase '.').erase '-', c.isDigit = true) ↔
      (l.count '.' ≤ 1 ∧ l.count '-' ≤ 1 ∧
        (∀ ch ∈ l, ch.isDigit = true ∨ ch = '.' ∨ ch = '-') ∧
        ∃ ch ∈ l, ch.isDigit = true) := by
  have hdotdash : ('.' : Char) ≠ '-' := by decide
  constructor
  · rintro ⟨hne, hall⟩
    refine ⟨?_, ?_, ?_, ?_⟩
    · by_contra hgt
      push_neg at hgt
      have h1 : 0 < List.count '.' (l.erase '.') := by
        rw [List.count_erase_self]; omega
      have h2 : 0 < List.count '.' ((l.erase '.').erase '-') := by
        rw [List.count_erase_of_ne hdotdash]; exact h1
      have hmem : ('.' : Char) ∈ (l.erase '.').erase '-' := List.count_pos_iff.mp h2
      exact absurd (hall '.' hmem) (by decide)
    · by_contra hgt
      push_neg at hgt
      have h1 : 1 < List.count '-' (l.erase '.') := by
        rw [List.count_erase_of_ne (Ne.symm hdotdash)]; exact hgt
      have h2 : 0 < List.count '-' ((l.erase '.').erase '-') := by
        rw [List.count_erase_self]; omega
      have hmem := List.count_pos_iff.mp h2
      exact absurd (hall '-' hmem) (by decide)
    · intro ch hch
      by_contra hcon
      push_neg at hcon
      obtain ⟨hnd, hndot, hndash⟩ := hcon
      have h1 : 0 < List.count ch l := List.count_pos_iff.mpr hch
      have h2 : 0 < List.count ch ((l.erase '.').erase '-') := by
        rw [List.count_erase_of_ne hndash, List.count_erase_of_ne hndot]; exact h1
      exact hnd (hall ch (List.count_pos_iff.mp h2))
    · obtain ⟨c, hc⟩ := List.exists_mem_of_ne_nil _ hne
      exact ⟨c, List.erase_subset _ _ (List.erase_subset _ _ hc), hall c hc⟩
  · rintro ⟨h1, h2, h3, c0, hc0, hd0⟩
    have hall : ∀ c ∈ (l.erase '.').erase '-', c.isDigit = true := by
      intro c hc
      have hcl : c ∈ l := List.erase_subset _ _ (List.erase_subset _ _ hc)
      rcases h3 c hcl with hd | rfl | rfl
      · exact hd
      · exfalso
        have hpos : 0 < List.count '.' ((l.erase '.').erase '-') :=
          List.count_pos_iff.mpr hc
        rw [List.count_erase_of_ne hdotdash, List.count_erase_self] at hpos
        omega
      · exfalso
        have hpos : 0 < List.count '-' ((l.erase '.').erase '-') :=
          List.count_pos_iff.mpr hc
        rw [List.count_erase_self, List.count_erase_of_ne (Ne.symm hdotdash)] at hpos
        omega
    refine ⟨?_, hall⟩
    have hne1 : c0 ≠ '.' := fun h => absurd (h ▸ hd0) (by decide)
    have hne2 : c0 ≠ '-' := fun h => absurd (h ▸ hd0) (by decide)
    have hpos : 0 < List.count c0 ((l.erase '.').erase '-') := by
      rw [List.count_erase_of_ne hne2, List.count_erase_of_ne hne1]
      exact List.count_pos_iff.mpr hc0
    intro hnil
    rw [hnil] at hpos
    simp at hpos

/-- A keyword rule only ever produces its own token constructor. -/
theorem kwRule_shape {w : String} {mk : String → Token} {cs : List Char}
    {t : Token} {r : List Char} (h : kwRule w mk cs = some (t, r)) :
    ∃ s, t = mk s := by
  unfold kwRule at h
  cases hm : matchCI w.toList cs with
  | none => rw [hm] at h; simp at h
  | some p =>
      rw [hm] at h
      simp only [Option.map_some', Option.some.injEq, Prod.mk.injEq] at h
      exact ⟨String.mk p.1, h.1.symm⟩

/-- t_STRING_TYPE only produces STRING_TYPE tokens. -/
theorem t_STRING_TYPE_shape {cs : List Char} {t : Token} {r : List Char}
    (h : t_STRING_TYPE cs = some (t, r)) : ∃ s, t = Token.STRING_TYPE s := by
  unfold t_STRING_TYPE at h
  cases hm : matchCI "STRING".toList cs with
  | none => rw [hm] at h; simp at h
  | some p =>
      rw [hm] at h
      simp only [Option.map_some', Option.some.injEq] at h
      cases hm2 : matchCI "_TYPE".toList p.2 with
      | none =>
          rw [hm2] at h
          simp only [Prod.mk.injEq] at h
          exact ⟨_, h.1.symm⟩
      | some p2 =>
          rw [hm2] at h
          simp only [Prod.mk.injEq] at h
          exact ⟨_, h.1.symm⟩

/-- t_COLUMN_REF only produces COLUMN_REF tokens. -/
theorem t_COLUMN_REF_shape {cs : List Char} {t : Token} {r : List Char}
    (h : t_COLUMN_REF cs = some (t, r)) : ∃ n, t = Token.COLUMN_REF n := by
  unfold t_COLUMN_REF at h
  simp only [] at h
  split at h
  · simp at h
  · split at h
    · split at h
      · simp only [Option.some.injEq, Prod.mk.injEq] at h
        exact ⟨_, h.1.symm⟩
      · simp at h
    · simp at h

/-- t_STRING only produces STRING tokens. -/
theorem t_STRING_shape {cs : List Char} {t : Token} {r : List Char}
    (h : t_STRING cs = some (t, r)) : ∃ s, t = Token.STRING s := by
  unfold t_STRING at h
  split at h
  · split at h
    · simp only [Option.some.injEq, Prod.mk.injEq] at h
      exact ⟨_, h.1.symm⟩
    · simp at h
  · simp at h

/-- Every NUMBER token t_NUMBER produces carries a non-negative value:
the regex has no sign prefix, so the value is digits, or digits plus a
non-negative fraction. -/
theorem t_NUMBER_nonneg {cs : List Char} {t : Token} {r : List Char}
    (h : t_NUMBER cs = some (t, r)) :
    ∀ v, t = Token.NUMBER v → 0 ≤ v.toQ := by
  rintro v rfl
  unfold t_NUMBER at h
  simp only [] at h
  split at h
  · simp at h
  · split at h
    · split at h
      · simp only [Option.some.injEq, Prod.mk.injEq, Token.NUMBER.injEq] at h
        rw [← h.1]
        simp [PyNum.toQ]
      · simp only [Option.some.injEq, Prod.mk.injEq, Token.NUMBER.injEq] at h
        rw [← h.1]
        simp only [PyNum.toQ]
        positivity
    · simp only [Option.some.injEq, Prod.mk.injEq, Token.NUMBER.injEq] at h
      rw [← h.1]
      simp [PyNum.toQ]

/-- A match found by firstRule comes from one of the listed rules. -/
theorem firstRule_mem {rs : List (List Char → Option (Token × List Char))}
    {cs : List Char} {p : Token × List Char} (h : firstRule rs cs = some p) :
    ∃ f ∈ rs, f cs = some p := by
  induction rs with
  | nil => simp [firstRule] at h
  | cons g gs ih =>
      rw [firstRule] at h
      cases hg : g cs with
      | some q =>
          rw [hg] at h
          exact ⟨g, List.mem_cons_self g gs, hg.trans h⟩
      | none =>
          rw [hg] at h
          obtain ⟨f, hf, hfcs⟩ := ih h
          exact ⟨f, List.mem_cons_of_mem g hf, hfcs⟩

/-- None of the function rules preceding t_NUMBER produces a NUMBER
token. -/
theorem lexFunctionRules_not_number :
    ∀ f ∈ lexFunctionRules, ∀ cs t r, f cs = some (t, r) → ∀ v, t ≠ Token.NUMBER v := by
  intro f hf
  fin_cases hf <;> intro cs t r h v
  · obtain ⟨s, rfl⟩ := kwRule_shape (show kwRule "IS" Token.IS cs = some (t, r) from h); simp
  · obtain ⟨s, rfl⟩ := kwRule_shape
      (show kwRule "BETWEEN" Token.BETWEEN cs = some (t, r) from h); simp
  · obtain ⟨s, rfl⟩ := kwRule_shape (show kwRule "AND" Token.AND cs = some (t, r) from h); simp
  · obtain ⟨s, rfl⟩ := kwRule_shape
      (show kwRule "MATCHES" Token.MATCHES cs = some (t, r) from h); simp
  · obtain ⟨s, rfl⟩ := kwRule_shape
      (show kwRule "CONTAINS" Token.CONTAINS cs = some (t, r) from h); simp
  · obtain ⟨s, rfl⟩ := kwRule_shape
      (show kwRule "NOT_CONTAINS" Token.NOT_CONTAINS cs = some (t, r) from h); simp
  · obtain ⟨s, rfl⟩ := kwRule_shape
      (show kwRule "STARTS_WITH" Token.STARTS_WITH cs = some (t, r) from h); simp
  · obtain ⟨s, rfl⟩ := kwRule_shape
      (show kwRule "ENDS_WITH" Token.ENDS_WITH cs = some (t, r) from h); simp
  · obtain ⟨s, rfl⟩ := kwRule_shape
      (show kwRule "ALPHANUM" Token.ALPHANUM cs = some (t, r) from h); simp
  · obtain ⟨s, rfl⟩ := kwRule_shape
      (show kwRule "NUMERIC" Token.NUMERIC cs = some (t, r) from h); simp
  · obtain ⟨s, rfl⟩ := kwRule_shape
      (show kwRule "INTEGER" Token.INTEGER cs = some (t, r) from h); simp
  · obtain ⟨s, rfl⟩ := kwRule_shape
      (show kwRule "FLOAT" Token.FLOAT cs = some (t, r) from h); simp
  · obtain ⟨s, rfl⟩ := t_STRING_TYPE_shape h; simp
  · obtain ⟨s, rfl⟩ := kwRule_shape
      (show kwRule "REQUIRED" Token.REQUIRED cs = some (t, r) from h); simp
  · obtain ⟨n, rfl⟩ := t_COLUMN_REF_shape h; simp
  · obtain ⟨s, rfl⟩ := t_STRING_shape h; simp

/-- The operator string rules never produce a NUMBER token. -/
theorem lexOperator_not_number {cs : List Char} {t : Token} {r : List Char}
    (h : lexOperator cs = some (t, r)) : ∀ v, t ≠ Token.NUMBER v := by
  intro v
  match cs with
  | [] => simp [lexOperator] at h
  | c :: cs2 =>
      unfold lexOperator at h
      repeat' split at h
      all_goals
        try (simp only [Option.some.injEq, Prod.mk.injEq] at h; obtain ⟨rfl, rfl⟩ := h)
      all_goals simp_all

/-- Any NUMBER token emitted by one master-regex attempt has a
non-negative value. -/
theorem lexToken_number {cs : List Char} {t : Token} {rest : List Char}
    (h : lexToken cs = some (some t, rest)) :
    ∀ v, t = Token.NUMBER v → 0 ≤ v.toQ := by
  intro v hv
  unfold lexToken at h
  cases h1 : firstRule lexFunctionRules cs with
  | some p =>
      rw [h1] at h
      obtain ⟨f, hf, hfcs⟩ := firstRule_mem h1
      simp only [Option.some.injEq, Prod.mk.injEq] at h
      obtain ⟨rfl, rfl⟩ := h
      exact absurd hv (lexFunctionRules_not_number f hf cs p.1 p.2 (by rw [hfcs]) v)
  | none =>
      rw [h1] at h
      cases h2 : t_NUMBER cs with
      | some p =>
          rw [h2] at h
          simp only [Option.some.injEq, Prod.mk.injEq] at h
          obtain ⟨rfl, rfl⟩ := h
          exact @t_NUMBER_nonneg cs p.1 p.2 (by rw [h2]) v hv
      | none =>
          rw [h2] at h
          cases h3 : t_newline cs with
          | some r2 =>
              rw [h3] at h
              simp at h
          | none =>
              rw [h3] at h
              cases h4 : lexOperator cs with
              | some p =>
                  rw [h4] at h
                  simp only [Option.some.injEq, Prod.mk.injEq] at h
                  obtain ⟨rfl, rfl⟩ := h
                  exact absurd hv (lexOperator_not_number
                    (show lexOperator cs = some (p.1, p.2) by rw [h4]) v)
              | none =>
                  rw [h4] at h
                  simp at h

/-- Every NUMBER token in a tokenized rule line carries a non-negative
value. -/
theorem tokenizeAux_number_nonneg :
    ∀ (fuel : ℕ) (cs : List Char) (t : Token), t ∈ tokenizeAux fuel cs →
      ∀ v, t = Token.NUMBER v → 0 ≤ v.toQ := by
  intro fuel
  induction fuel with
  | zero => intro cs t ht; simp [tokenizeAux] at ht
  | succ f ih =>
      intro cs t ht
      match cs with
      | [] => simp [tokenizeAux] at ht
      | c :: cs2 =>
          rw [tokenizeAux] at ht
          by_cases hig : c = ' ' ∨ c = '\t'
          · rw [if_pos hig] at ht
            exact ih cs2 t ht
          · rw [if_neg hig] at ht
            cases hl : lexToken (c :: cs2) with
            | none =>
                rw [hl] at ht
                exact ih cs2 t ht
            | some p =>
                obtain ⟨ot, rest⟩ := p
                cases ot with
                | none =>
                    rw [hl] at ht
                    exact ih rest t ht
                | some tk =>
                    rw [hl] at ht
                    rcases List.mem_cons.mp ht with rfl | ht2
                    · exact lexToken_number hl
                    · exact ih rest t ht2

/-- Every NUMBER token of a tokenized string is non-negative. -/
theorem tokenize_number_nonneg {s : String} {v : PyNum}
    (h : Token.NUMBER v ∈ tokenize s) : 0 ≤ v.toQ :=
  tokenizeAux_number_nonneg _ _ _ h v rfl

/-- A parse that yields a range rule consumed exactly the COLUMN_REF
BETWEEN NUMBER AND NUMBER shape, so both bounds are NUMBER token values
of the input. -/
theorem parse_range_mem {ts : List Token} {c : ℤ} {mn mx : PyNum}
    (h : parse_rule_tokens ts = some (.range c mn mx)) :
    Token.NUMBER mn ∈ ts ∧ Token.NUMBER mx ∈ ts := by
  unfold parse_rule_tokens at h
  repeat' split at h
  all_goals simp_all [Option.map_eq_some']

/-- Claim C7: for a range rule, a present numerically-coercible cell
passes exactly when min <= v <= max; a missing or non-coercible cell
fails; and a range with min > max never passes. -/
theorem claim_C7 (c : ℤ) (mn mx : PyNum) (data : Row) :
    (∀ v q, rowGet data c = some v → pyFloatOfValue v = some q →
        (validate_rule (.range c mn mx) data = true ↔ mn.toQ ≤ q ∧ q ≤ mx.toQ)) ∧
      (rowGet data c = none → validate_rule (.range c mn mx) data = false) ∧
      (∀ v, rowGet data c = some v → pyFloatOfValue v = none →
        validate_rule (.range c mn mx) data = false) ∧
      (mx.toQ < mn.toQ → validate_rule (.range c mn mx) data = false) := by
  refine ⟨?_, ?_, ?_, ?_⟩
  · intro v q hv hq
    simp [validate_rule, hv, hq]
  · intro hv
    simp [validate_rule, hv]
  · intro v hv hq
    simp [validate_rule, hv, hq]
  · intro hlt
    cases hv : rowGet data c with
    | none => simp [validate_rule, hv]
    | some v =>
        cases hq : pyFloatOfValue v with
        | none => simp [validate_rule, hv, hq]
        | some q =>
            simp only [validate_rule, hv, hq]
            rw [decide_eq_false_iff_not]
            rintro ⟨h1, h2⟩
            linarith

/-- Witness for claim C7 at a concrete rule and row: 60C-style range
with cell "15" inside the bounds passes. -/
theorem claim_C7_witness :
    validate_rule (.range 1 (.int 10) (.int 20)) [(1, Value.str "15")] = true := by
  have h := (claim_C7 1 (.int 10) (.int 20) [(1, Value.str "15")]).1
    (Value.str "15") 15 rfl (by decide)
  exact h.mpr (by constructor <;> norm_num [PyNum.toQ])

/-- Claim C8: the row driver returns one verdict per rule, in
declaration order, each verdict depending only on its own rule and the
row (the elementwise map form), with no short-circuit. -/
theorem claim_C8 (rules : List Rule) (data : Row) :
    validate_data rules data = rules.map (fun r => (r, validate_rule r data)) ∧
      (validate_data rules data).length = rules.length ∧
      ∀ (i : ℕ) (h1 : i < (validate_data rules data).length) (h2 : i < rules.length),
        (validate_data rules data).get ⟨i, h1⟩ =
          (rules.get ⟨i, h2⟩, validate_rule (rules.get ⟨i, h2⟩) data) := by
  refine ⟨validate_data_eq_map rules data, ?_, ?_⟩
  · rw [validate_data_eq_map]
    simp
  · intro i h1 h2
    have hmap := validate_data_eq_map rules data
    simp only [List.get_eq_getElem, hmap, List.getElem_map]

/-- Witness for claim C8 on ruleset ["1C REQUIRED", "3C > 1000"] and
row ["TXN1", "VendorX", "500"]: two verdicts, the second being the
failing comparison. -/
theorem claim_C8_witness :
    (validate_data [Rule.validation 1 "required", Rule.comparison 3 ">" (.int 1000)]
        [(1, Value.str "TXN1"), (2, Value.str "VendorX"), (3, Value.str "500")]).length = 2 ∧
      (validate_data [Rule.validation 1 "required", Rule.comparison 3 ">" (.int 1000)]
          [(1, Value.str "TXN1"), (2, Value.str "VendorX"), (3, Value.str "500")]).get
        ⟨1, by decide⟩ = (Rule.comparison 3 ">" (.int 1000), false) := by
  constructor
  · exact (claim_C8 [Rule.validation 1 "required", Rule.comparison 3 ">" (.int 1000)]
      [(1, Value.str "TXN1"), (2, Value.str "VendorX"), (3, Value.str "500")]).2.1
  · have h := (claim_C8 [Rule.validation 1 "required", Rule.comparison 3 ">" (.int 1000)]
      [(1, Value.str "TXN1"), (2, Value.str "VendorX"), (3, Value.str "500")]).2.2 1
      (by decide) (by decide)
    exact h.trans (by decide)

/-- Claim C10: every range rule the parser can produce from source text
has non-negative bounds (NUMBER tokens are unsigned), so a cell that
coerces to a negative number never passes a parsed range rule. -/
theorem claim_C10 (s : String) (c : ℤ) (mn mx : PyNum)
    (h : parse_rule s = some (.range c mn mx)) :
    (0 ≤ mn.toQ ∧ 0 ≤ mx.toQ) ∧
      ∀ (data : Row) (v : Value) (q : ℚ), rowGet data c = some v →
        pyFloatOfValue v = some q → q < 0 →
        validate_rule (.range c mn mx) data = false := by
  have hmem := parse_range_mem h
  have h1 : 0 ≤ mn.toQ := tokenize_number_nonneg hmem.1
  have h2 : 0 ≤ mx.toQ := tokenize_number_nonneg hmem.2
  refine ⟨⟨h1, h2⟩, ?_⟩
  intro data v q hv hq hneg
  simp only [validate_rule, hv, hq]
  rw [decide_eq_false_iff_not]
  rintro ⟨hle, -⟩
  linarith

/-- Witness for claim C10: the parsed rule 1C BETWEEN 10 AND 20 fails
on a row whose first cell is "-5". -/
theorem claim_C10_witness :
    validate_rule (.range 1 (.int 10) (.int 20)) [(1, Value.str "-5")] = false := by
  have h := claim_C10 "1C BETWEEN 10 AND 20" 1 (.int 10) (.int 20) (by decide)
  exact h.2 [(1, Value.str "-5")] (Value.str "-5") (-5) rfl (by decide) (by norm_num)

/-- Claim C1, code evaluated at the failing input: the STRING token
regex demands a space after the closing quote and the value slice keeps
that closing quote, so the pattern stored for 1C STARTS_WITH "Item"
(with the mandatory trailing blank) is Item followed by a double quote,
and the row whose first cell is Item-Box fails; without the trailing
blank the line does not lex a STRING at all and parsing fails. -/
theorem claim_C1 :
    parse_rule "1C STARTS_WITH \"Item\" " = some (.pattern 1 "starts_with" "Item\"") ∧
      parse_rule "1C STARTS_WITH \"Item\"" = none ∧
      validate_rule (.pattern 1 "starts_with" "Item\"")
        [(1, Value.str "Item-Box"), (2, Value.str "50")] = false := by
  refine ⟨by decide, by decide, by decide⟩

/-- Counterexample to claim C2: the line 4C = 3C parses as an
arithmetic rule whose expression is the bare column value 3, not as a
comparison. -/
theorem claim_C2_counterexample :
    parse_rule "4C = 3C" = some (.arithmetic 4 (.int 3)) := by decide

/-- Claim C2 as amended: a line nC = mC always parses as an arithmetic
rule with target n and expression the bare column reference m; the
value production of comparisons admits only NUMBER and STRING, never a
column reference. -/
theorem claim_C2 :
    (∀ n m : ℤ, parse_rule_tokens [Token.COLUMN_REF n, Token.EQUALS, Token.COLUMN_REF m] =
        some (.arithmetic n (.int m))) ∧
      parse_rule "4C = 3C" = some (.arithmetic 4 (.int 3)) := by
  exact ⟨fun n m => rfl, by decide⟩

/-- Counterexample to claim C3: in the parsed rule 4C = 1C + 2 the
literal 2 is resolved against the row (column 2 holds 99), so the sum
is 109 rather than 12, and a target of 109 passes. -/
theorem claim_C3_counterexample :
    parse_rule "4C = 1C + 2" = some (.arithmetic 4 (.binary "+" (.int 1) (.int 2))) ∧
      evaluate_expression (.int 2) [(1, Value.int 10), (2, Value.int 99), (4, Value.int 109)] =
        some (Value.int 99) ∧
      evaluate_expression (.binary "+" (.int 1) (.int 2))
          [(1, Value.int 10), (2, Value.int 99), (4, Value.int 109)] =
        some (Value.float 109) ∧
      validate_rule (.arithmetic 4 (.binary "+" (.int 1) (.int 2)))
          [(1, Value.int 10), (2, Value.int 99), (4, Value.int 109)] = true := by
  refine ⟨by decide, by decide, ?_, ?_⟩
  · have h0 : evaluate_expression (.binary "+" (.int 1) (.int 2))
        [(1, Value.int 10), (2, Value.int 99), (4, Value.int 109)] =
        some (.float (((10 : ℤ) : ℚ) + ((99 : ℤ) : ℚ))) := rfl
    rw [h0]
    norm_num
  · have h0 : validate_rule (.arithmetic 4 (.binary "+" (.int 1) (.int 2)))
        [(1, Value.int 10), (2, Value.int 99), (4, Value.int 109)] =
        decide (|((109 : ℤ) : ℚ) - (((10 : ℤ) : ℚ) + ((99 : ℤ) : ℚ))| < 1 / 1000) := rfl
    rw [h0, decide_eq_true_eq]
    norm_num

/-- Claim C3 as amended: any bare integer operand, whether written as a
column reference or as an integer literal (the parser erases the
difference), evaluates to the row's cell at that index when the row has
that key and to itself otherwise; float literals always evaluate to
themselves. -/
theorem claim_C3 (n : ℤ) (q : ℚ) (data : Row) :
    evaluate_expression (.int n) data = some ((rowGet data n).getD (.int n)) ∧
      evaluate_expression (.float q) data = some (.float q) := by
  constructor
  · cases h : rowGet data n <;> simp [evaluate_expression, h]
  · rfl

/-- Counterexample to claim C4: a present integer cell fails the
STRING_TYPE check (the evaluator tests isinstance(value, str)), and a
rule written with the bare keyword STRING stores the kind string, which
no evaluator branch handles, so even a text cell fails it. -/
theorem claim_C4_counterexample :
    parse_rule "1C IS STRING_TYPE" = some (.datatype 1 "string_type") ∧
      validate_rule (.datatype 1 "string_type") [(1, Value.int 5)] = false ∧
      parse_rule "1C IS STRING" = some (.datatype 1 "string") ∧
      validate_rule (.datatype 1 "string") [(1, Value.str "abc")] = false := by
  refine ⟨by decide, by decide, by decide, by decide⟩

/-- Claim C4 as amended: with a present cell, a datatype rule of kind
string_type passes exactly when the cell is the text variant, and a
datatype rule of kind string (the spelling STRING produces) never
passes. -/
theorem claim_C4 (c : ℤ) (data : Row) (v : Value) (h : rowGet data c = some v) :
    (validate_rule (.datatype c "string_type") data = true ↔ ∃ s, v = Value.str s) ∧
      validate_rule (.datatype c "string") data = false := by
  constructor
  · simp only [validate_rule, h]
    cases v <;> simp
  · simp [validate_rule, h]

/-- Witness for the amended claim C4: a text cell passes string_type
and still fails the unhandled kind string. -/
theorem claim_C4_witness :
    validate_rule (.datatype 1 "string_type") [(1, Value.str "x")] = true ∧
      validate_rule (.datatype 1 "string") [(1, Value.str "x")] = false := by
  have h := claim_C4 1 [(1, Value.str "x")] (Value.str "x") rfl
  exact ⟨h.1.mpr ⟨"x", rfl⟩, h.2⟩

/-- Unfolding helper: the characters of a packed string. -/
theorem toList_mk (l : List Char) : (String.mk l).toList = l := rfl

/-- Counterexample to claim C5: the text 12-3, whose dash sits between
digits, passes the numeric datatype check (the evaluator deletes the
first dot and the first dash wherever they are and tests isdigit). -/
theorem claim_C5_counterexample :
    parse_rule "1C IS NUMERIC" = some (.datatype 1 "numeric") ∧
      validate_rule (.datatype 1 "numeric") [(1, Value.str "12-3")] = true := by
  refine ⟨by decide, by decide⟩

/-- Claim C5 as amended: with a present cell, the numeric datatype
check passes exactly when the cell's text form consists of digits plus
at most one dot and at most one dash in arbitrary positions, with at
least one digit; the sign and the dot need not be leading or unique in
position, so 12-3 passes while forms with two dots or two dashes
fail. -/
theorem claim_C5 (c : ℤ) (data : Row) (v : Value) (h : rowGet data c = some v) :
    validate_rule (.datatype c "numeric") data = true ↔ looseSignedDecimal (pyStr v) := by
  have h1 : validate_rule (.datatype c "numeric") data =
      pyIsdigit (removeFirst '-' (removeFirst '.' (pyStr v))) := by
    simp [validate_rule, h]
  have h2 : removeFirst '-' (removeFirst '.' (pyStr v)) =
      String.mk (((pyStr v).toList.erase '.').erase '-') := by
    simp [removeFirst, removeFirstAux_eq_erase, toList_mk]
  rw [h1, h2]
  unfold pyIsdigit looseSignedDecimal
  rw [toList_mk, Bool.and_eq_true, Bool.not_eq_true', List.all_eq_true]
  constructor
  · rintro ⟨he, hall⟩
    refine (numeric_check_list _).mp ⟨?_, fun ch hc => hall ch hc⟩
    intro hnil
    rw [hnil] at he
    simp at he
  · intro hr
    obtain ⟨hne, hall⟩ := (numeric_check_list _).mpr hr
    refine ⟨?_, fun ch hc => hall ch hc⟩
    cases hmt : (((pyStr v).toList.erase '.').erase '-').isEmpty
    · rfl
    · exact absurd (List.isEmpty_iff.mp hmt) hne

/-- Witness for the amended claim C5: the text 4.5 is a loose signed
decimal and passes the numeric check. -/
theorem claim_C5_witness :
    validate_rule (.datatype 1 "numeric") [(1, Value.str "4.5")] = true := by
  refine (claim_C5 1 [(1, Value.str "4.5")] (Value.str "4.5") rfl).mpr ?_
  unfold looseSignedDecimal
  decide

/-- Counterexample to claim C6: with the cell coercing to 0 and the
operand 0.001 the gap is exactly the tolerance, and both the = rule and
the != rule fail, so != is not the negation of =. -/
theorem claim_C6_counterexample :
    validate_rule (.comparison 1 "=" (Value.float (1 / 1000))) [(1, Value.int 0)] = false ∧
      validate_rule (.comparison 1 "!=" (Value.float (1 / 1000))) [(1, Value.int 0)] = false := by
  have h1 : validate_rule (.comparison 1 "=" (Value.float (1 / 1000))) [(1, Value.int 0)] =
      decide (|((0 : ℤ) : ℚ) - 1 / 1000| < 1 / 1000) := rfl
  have h2 : validate_rule (.comparison 1 "!=" (Value.float (1 / 1000))) [(1, Value.int 0)] =
      decide (|((0 : ℤ) : ℚ) - 1 / 1000| > 1 / 1000) := rfl
  have habs : |((0 : ℤ) : ℚ) - 1 / 1000| = 1 / 1000 := by
    rw [show ((0 : ℤ) : ℚ) - 1 / 1000 = -(1 / 1000) by norm_num, abs_neg,
      abs_of_pos (by norm_num)]
  constructor
  · rw [h1, decide_eq_false_iff_not, habs]
    simp
  · rw [h2, decide_eq_false_iff_not, habs]
    simp

/-- Claim C6 as amended: when both sides coerce to a and b, the != rule
passes exactly when |a - b| > 1e-3 and the = rule exactly when
|a - b| < 1e-3; these are mutual negations whenever |a - b| differs
from 1e-3, but at |a - b| = 1e-3 both rules fail. -/
theorem claim_C6 (c : ℤ) (rhs : Value) (data : Row) (v : Value) (a b : ℚ)
    (hv : rowGet data c = some v) (ha : pyFloatOfValue v = some a)
    (hb : pyFloatOfValue rhs = some b) :
    (validate_rule (.comparison c "!=" rhs) data = true ↔ 1 / 1000 < |a - b|) ∧
      (validate_rule (.comparison c "=" rhs) data = true ↔ |a - b| < 1 / 1000) ∧
      (|a - b| ≠ 1 / 1000 →
        (validate_rule (.comparison c "!=" rhs) data = true ↔
          validate_rule (.comparison c "=" rhs) data = false)) ∧
      (|a - b| = 1 / 1000 →
        validate_rule (.comparison c "!=" rhs) data = false ∧
          validate_rule (.comparison c "=" rhs) data = false) := by
  have hne : validate_rule (.comparison c "!=" rhs) data = decide (|a - b| > 1 / 1000) := by
    simp [validate_rule, hv, ha, hb]
  have heq : validate_rule (.comparison c "=" rhs) data = decide (|a - b| < 1 / 1000) := by
    simp [validate_rule, hv, ha, hb]
  refine ⟨?_, ?_, ?_, ?_⟩
  · rw [hne, decide_eq_true_eq]
  · rw [heq, decide_eq_true_eq]
  · intro hneq
    rw [hne, heq, decide_eq_true_eq, decide_eq_false_iff_not]
    constructor
    · intro hgt hlt
      linarith
    · intro hnlt
      rcases lt_or_gt_of_ne hneq with hl | hg
      · exact absurd hl hnlt
      · exact hg
  · intro hbd
    rw [hne, heq]
    constructor
    · rw [decide_eq_false_iff_not, hbd]
      simp
    · rw [decide_eq_false_iff_not, hbd]
      simp

/-- Witness for the amended claim C6: a cell of 5 against an operand of
0 is farther than the tolerance, so != passes. -/
theorem claim_C6_witness :
    validate_rule (.comparison 1 "!=" (Value.int 0)) [(1, Value.int 5)] = true := by
  have h := claim_C6 1 (Value.int 0) [(1, Value.int 5)] (Value.int 5) ((5 : ℤ) : ℚ)
    ((0 : ℤ) : ℚ) rfl rfl rfl
  refine h.1.mpr ?_
  norm_num

/-- Counterexample to claim C9: a ruleset whose second line is not a
rule yields the same result as the ruleset without it; the failing line
is silently dropped and the caller cannot tell the two apart. -/
theorem claim_C9_counterexample :
    parse_multiple_rules "1C REQUIRED\n???" = [Rule.validation 1 "required"] ∧
      parse_multiple_rules "1C REQUIRED" = [Rule.validation 1 "required"] ∧
      parse_rule "???" = none := by
  refine ⟨by decide, by decide, by decide⟩

/-- Claim C9 as amended: parse_rule returns None for an unrecognizable
line (no exception escapes), and parse_multiple_rules keeps only the
successfully parsed rules - the filterMap form - so a failing line
leaves no trace in the returned list. -/
theorem claim_C9 :
    (∀ s : String, parse_multiple_rules s =
        ((splitLines (pyStripChars s.toList)).map String.mk).filterMap (fun line =>
          if pyStrip line ≠ "" ∧ ¬ strStartsWith (pyStrip line) "#" then
            parse_rule (pyStrip line)
          else none)) ∧
      parse_multiple_rules "1C REQUIRED\n???" = parse_multiple_rules "1C REQUIRED" := by
  constructor
  · intro s
    unfold parse_multiple_rules
    have hstep : ∀ (acc : List Rule) (line : String),
        lineStep acc line = acc ++
          (if pyStrip line ≠ "" ∧ ¬ strStartsWith (pyStrip line) "#" then
            parse_rule (pyStrip line)
          else none).toList := by
      intro acc line
      unfold lineStep
      by_cases hg : pyStrip line ≠ "" ∧ ¬ strStartsWith (pyStrip line) "#"
      · rw [if_pos hg, if_pos hg]
        cases hp : parse_rule (pyStrip line) <;> simp [hp]
      · rw [if_neg hg, if_neg hg]
        simp
    have hfm : ∀ (g : String → Option Rule) (hd : String) (tl : List String),
        List.filterMap g (hd :: tl) = (g hd).toList ++ List.filterMap g tl := by
      intro g hd tl
      cases hgd : g hd <;> simp [List.filterMap_cons, hgd]
    have hgen : ∀ (lines : List String) (acc : List Rule),
        lines.foldl lineStep acc =
          acc ++ lines.filterMap (fun line =>
            if pyStrip line ≠ "" ∧ ¬ strStartsWith (pyStrip line) "#" then
              parse_rule (pyStrip line)
            else none) := by
      intro lines
      induction lines with
      | nil => intro acc; simp
      | cons hd tl ih =>
          intro acc
          rw [List.foldl_cons, hstep, ih, hfm]
          simp [List.append_assoc]
    exact (hgen _ []).trans (by simp)
  · decide
end CapstoneDSL
